import Mathlib

/-!
Shallow embedding of the invariant-test lifecycle pieces of this repository:

* `src/test/extended/util/oc_copy.go` — kubeconfig-style credential record
  construction (`createConfig` and its nickname helpers);
* `src/pkg/invariants/types.go` — the `InvariantTest` and `InvariantRegistry`
  interfaces (signatures, and the spec-modelled registry bookkeeping);
* `src/pkg/invariants/clusterinfo_serializer/invariant.go` — the
  cluster-info serializer observer.

Go `error` values are modelled by `Option GoError` (a `nil` error is `none`)
or by `Except GoError` for functions returning `(T, error)` where the value
is only meaningful on success.  Go strings and `[]byte` payloads are Lean
`String`s; `time.Time` stamps are `Nat`s (only passed through, never
inspected by the embedded code).  External collaborators (URL parsing, the
user API lookup, JSON marshalling, the filesystem) are passed in as explicit
function/value parameters, so every embedded function is a pure function of
its arguments plus the external responses it consumes.
-/

set_option autoImplicit false
set_option linter.unusedVariables false

namespace OriginInvariants

/-- Go `error` values, carrying their message. -/
structure GoError where
  msg : String
  deriving DecidableEq, Inhabited

/-- Decidable equality of `Except` results, used to evaluate the embedded
functions at concrete inputs. -/
instance {ε α : Type} [DecidableEq ε] [DecidableEq α] : DecidableEq (Except ε α) :=
  fun x y =>
    match x, y with
    | .error a, .error b => decidable_of_iff (a = b) (by simp)
    | .error _, .ok _ => Decidable.isFalse (fun h => Except.noConfusion h)
    | .ok _, .error _ => Decidable.isFalse (fun h => Except.noConfusion h)
    | .ok a, .ok b => decidable_of_iff (a = b) (by simp)

/-! ## Embedding of `src/test/extended/util/oc_copy.go` -/

/-- Result of `url.Parse` (external `net/url` collaborator): the fields of
the parsed URL that `netutil.CanonicalAddr` consumes — `Scheme` and `Host`
(the `Host` field already includes the port when one was written). -/
structure URL where
  Scheme : String
  Host : String
  deriving DecidableEq, Inhabited

/-- Embedding of the forked `netutil.hasPort`: whether the last `:` in `s`
comes after the last `]` (`strings.LastIndex(s, ":") > strings.LastIndex(s, "]")`,
with `-1` for "absent"). -/
def lastIndexChar (s : String) (c : Char) : Int :=
  (s.data.foldl (fun (p : Nat × Int) ch =>
    (p.1 + 1, if ch = c then Int.ofNat p.1 else p.2)) (0, -1)).2

def hasPort (s : String) : Bool :=
  lastIndexChar s ':' > lastIndexChar s ']'

/-- Embedding of `netutil.CanonicalAddr` (the forked
`k8s.io/apimachinery/third_party/forked/golang/netutil` helper called by
`getClusterNicknameFromConfig`): returns `url.Host`, appending the default
port for the scheme when no port is present. -/
def CanonicalAddr (u : URL) : String :=
  if hasPort u.Host then u.Host
  else if u.Scheme = "http" then u.Host ++ ":80"
  else if u.Scheme = "https" then u.Host ++ ":443"
  else u.Host

/-- Embedding of `strings.Replace(hostPort, ".", "-", -1)` as called at
`oc_copy.go:30`: the old and new patterns are the single characters `.` and
`-`, so replacing every occurrence is a character map. -/
def replaceDotsWithDashes (s : String) : String :=
  String.mk (s.data.map fun c => if c = '.' then '-' else c)

/-- The fields of `rest.Config` read by `oc_copy.go`.  `CertFile`, `CertData`,
`KeyFile`, `KeyData`, `CAFile`, `CAData` live in the embedded
`TLSClientConfig` in Go and are flattened here, matching Go's field
promotion.  `[]byte` payloads are modelled as `String`s. -/
structure RestConfig where
  Host : String
  BearerToken : String
  Username : String
  CertFile : String
  CertData : String
  KeyFile : String
  KeyData : String
  CAFile : String
  CAData : String
  Insecure : Bool
  deriving DecidableEq, Inhabited

/-- Embedding of `getClusterNicknameFromConfig` (`oc_copy.go:22-31`):
parse `clientCfg.Host`, take the canonical `host:port`, replace `.` with `-`.
The external `url.Parse` is the `parse` parameter. -/
def getClusterNicknameFromConfig (parse : String → Except GoError URL)
    (clientCfg : RestConfig) : Except GoError String :=
  match parse clientCfg.Host with
  | .error e => .error e
  | .ok u => .ok (replaceDotsWithDashes (CanonicalAddr u))

/-- Outcome of the user-API lookup performed by `getUserPartOfNickname`
(`userClient.Users().Get(ctx, "~", ...)` after the connection-refused
polling loop settles): the server returned a user name, the lookup ended in
a NotFound/Forbidden error, or some other error was returned (this last case
also covers a failing `userv1typedclient.NewForConfig`). -/
inductive UserLookupResult where
  | found (name : String)
  | notFoundOrForbidden
  | otherError (e : GoError)
  deriving DecidableEq, Inhabited

/-- Embedding of `getUserPartOfNickname` (`oc_copy.go:49-76`): returns the
server-reported user name; on NotFound/Forbidden it falls back to the bearer
token, then the username, then the empty name carried by the empty user
object; any other error is propagated.  The external server interaction is
the `resp` parameter. -/
def getUserPartOfNickname (clientCfg : RestConfig) (resp : UserLookupResult) :
    Except GoError String :=
  match resp with
  | .found name => .ok name
  | .notFoundOrForbidden =>
    if clientCfg.BearerToken.length > 0 then .ok clientCfg.BearerToken
    else if clientCfg.Username.length > 0 then .ok clientCfg.Username
    else .ok ""
  | .otherError e => .error e

/-- Embedding of `getUserNicknameFromConfig` (`oc_copy.go:35-47`):
`userPart ++ "/" ++ clusterNick`. -/
def getUserNicknameFromConfig (parse : String → Except GoError URL)
    (clientCfg : RestConfig) (resp : UserLookupResult) : Except GoError String :=
  match getUserPartOfNickname clientCfg resp with
  | .error e => .error e
  | .ok userPartOfNick =>
    match getClusterNicknameFromConfig parse clientCfg with
    | .error e => .error e
    | .ok clusterNick => .ok (userPartOfNick ++ "/" ++ clusterNick)

/-- Embedding of `getContextNicknameFromConfig` (`oc_copy.go:81-93`):
`namespace ++ "/" ++ clusterNick ++ "/" ++ userPart`. -/
def getContextNicknameFromConfig (parse : String → Except GoError URL)
    (ns : String) (clientCfg : RestConfig) (resp : UserLookupResult) :
    Except GoError String :=
  match getUserPartOfNickname clientCfg resp with
  | .error e => .error e
  | .ok userPartOfNick =>
    match getClusterNicknameFromConfig parse clientCfg with
    | .error e => .error e
    | .ok clusterNick => .ok (ns ++ "/" ++ clusterNick ++ "/" ++ userPartOfNick)

/-- `clientcmdapi.AuthInfo` — the fields written by `createConfig`
(all others keep `NewAuthInfo`'s zero values and are omitted). -/
structure AuthInfo where
  Token : String
  ClientCertificate : String
  ClientCertificateData : String
  ClientKey : String
  ClientKeyData : String
  deriving DecidableEq, Inhabited

/-- `clientcmdapi.Cluster` — the fields written by `createConfig`. -/
structure Cluster where
  Server : String
  CertificateAuthority : String
  CertificateAuthorityData : String
  InsecureSkipTLSVerify : Bool
  deriving DecidableEq, Inhabited

/-- `clientcmdapi.Context` — the fields written by `createConfig`
(`Namespace` is spelled `Nspace` because `namespace` is a Lean keyword). -/
structure KubeContext where
  Cluster : String
  AuthInfo : String
  Nspace : String
  deriving DecidableEq, Inhabited

/-- `clientcmdapi.Config`: the name-keyed maps are modelled as association
lists (order of insertion; `createConfig` inserts exactly one entry each). -/
structure ClientcmdConfig where
  Clusters : List (String × Cluster)
  AuthInfos : List (String × AuthInfo)
  Contexts : List (String × KubeContext)
  CurrentContext : String
  deriving DecidableEq, Inhabited

/-- Embedding of `createConfig` (`oc_copy.go:95-143`): builds the three
nicknames, then a config holding one auth-info, one cluster and one context
entry; inline certificate/key/CA data is written only when the corresponding
file path is empty (`len(...) == 0`), exactly as in the source. -/
def createConfig (parse : String → Except GoError URL) (ns : String)
    (clientCfg : RestConfig) (resp : UserLookupResult) :
    Except GoError ClientcmdConfig :=
  match getClusterNicknameFromConfig parse clientCfg with
  | .error e => .error e
  | .ok clusterNick =>
  match getUserNicknameFromConfig parse clientCfg resp with
  | .error e => .error e
  | .ok userNick =>
  match getContextNicknameFromConfig parse ns clientCfg resp with
  | .error e => .error e
  | .ok contextNick =>
    let credentials : AuthInfo :=
      { Token := clientCfg.BearerToken
        ClientCertificate := clientCfg.CertFile
        ClientCertificateData :=
          if clientCfg.CertFile.length = 0 then clientCfg.CertData else ""
        ClientKey := clientCfg.KeyFile
        ClientKeyData :=
          if clientCfg.KeyFile.length = 0 then clientCfg.KeyData else "" }
    let cluster : Cluster :=
      { Server := clientCfg.Host
        CertificateAuthority := clientCfg.CAFile
        CertificateAuthorityData :=
          if clientCfg.CAFile.length = 0 then clientCfg.CAData else ""
        InsecureSkipTLSVerify := clientCfg.Insecure }
    let context : KubeContext :=
      { Cluster := clusterNick, AuthInfo := userNick, Nspace := ns }
    .ok { Clusters := [(clusterNick, cluster)]
          AuthInfos := [(userNick, credentials)]
          Contexts := [(contextNick, context)]
          CurrentContext := contextNick }

/-! ## Registry model (`src/pkg/invariants/types.go`, §4.1 of the spec) -/

/-- Observer instances are identified by an id (the pointer identity of the
Go `InvariantTest` value); the registry stores them opaquely. -/
abbrev ObserverId := Nat

/-- One registration: `(name, jiraComponent, invariantTest)` as in
`InvariantRegistry.AddInvariant`'s parameters. -/
abbrev RegEntry := String × String × ObserverId

/-- Registry errors.  The spec's DuplicateNameError carries the offending
name. -/
inductive RegError where
  | duplicateName (name : String)
  deriving DecidableEq, Inhabited

/-- Modelled from the spec: the struct backing the `InvariantRegistry`
interface of `types.go` is not under `src/` (only the interface declaration
is), so the registry is modelled as the ordered list of its registrations,
per §4.1 ("a name-keyed mapping", order preserved for determinism). -/
structure Registry where
  entries : List RegEntry
  deriving DecidableEq, Inhabited

/-- Whether `name` is already registered at this registry level. -/
def containsName (r : Registry) (name : String) : Bool :=
  r.entries.any fun e => e.1 = name

/-- Modelled from the spec: the body of `InvariantRegistry.AddInvariant`
(`types.go:58`) is not under `src/`.  Per §4.1, `register(name,
ownershipTag, observer)` fails with DuplicateNameError if `name` is already
present at this level and otherwise stores the binding. -/
def AddInvariant (r : Registry) (name jiraComponent : String)
    (invariantTest : ObserverId) : Except RegError Registry :=
  if containsName r name then .error (RegError.duplicateName name)
  else .ok ⟨r.entries ++ [(name, jiraComponent, invariantTest)]⟩

/-- Registers each entry of a list in order, stopping at the first error. -/
def addAllEntries (r : Registry) : List RegEntry → Except RegError Registry
  | [] => .ok r
  | e :: es =>
    match AddInvariant r e.1 e.2.1 e.2.2 with
    | .error er => .error er
    | .ok r' => addAllEntries r' es

/-- Modelled from the spec: the body behind
`InvariantRegistry.AddRegistryOrDie` (`types.go:51`) is not under `src/`.
Per §4.1, `composeSubRegistry(childRegistry)` merges all of the child's
entries into this registry's namespace and fails with DuplicateNameError on
any name collision across the union; failure is modelled as an error
result (the "OrDie" spelling in the interface dies on that same error). -/
def composeSubRegistry (parent child : Registry) : Except RegError Registry :=
  addAllEntries parent child.entries

/-! ## Embedding of `src/pkg/invariants/clusterinfo_serializer/invariant.go`

The `monitorapi` / `junitapi` types are external to `src/`; the serializer
never inspects them, so minimal stand-ins suffice. -/

/-- Stand-in for `monitorapi.Interval` (external to `src/`; opaque to the
serializer). -/
structure Interval where
  locator : String
  message : String
  fromTime : Nat
  toTime : Nat
  deriving DecidableEq, Inhabited

/-- Stand-in for `monitorapi.Intervals`. -/
abbrev Intervals := List Interval

/-- Stand-in for `monitorapi.ResourcesMap` (opaque to the serializer). -/
abbrev ResourcesMap := List (String × String)

/-- Stand-in for `*junitapi.JUnitTestCase` (opaque to the serializer). -/
structure JUnitTestCase where
  name : String
  deriving DecidableEq, Inhabited

/-- Stand-in for `monitorapi.RecorderWriter` (opaque to the serializer). -/
structure RecorderWriter where
  id : Nat
  deriving DecidableEq, Inhabited

/-- Stand-in for `platformidentification.ClusterData` (external to `src/`;
produced by `monitor.CollectClusterData` and serialized opaquely). -/
structure ClusterData where
  payload : String
  deriving DecidableEq, Inhabited

/-- The `clusterInfoSerializer` struct (`invariant.go:20-22`): its only
field is the admin REST config captured by `StartCollection` (`nil` before
that, hence `Option`). -/
structure ClusterInfoSerializer where
  adminRESTConfig : Option RestConfig
  deriving DecidableEq, Inhabited

/-- `NewClusterInfoSerializer` (`invariant.go:24-26`): `&clusterInfoSerializer{}`. -/
def NewClusterInfoSerializer : ClusterInfoSerializer :=
  { adminRESTConfig := none }

/-- `clusterInfoSerializer.StartCollection` (`invariant.go:28-31`): stores
the admin REST config and returns a `nil` error. -/
def StartCollection (w : ClusterInfoSerializer) (adminRESTConfig : RestConfig)
    (recorder : RecorderWriter) : ClusterInfoSerializer × Option GoError :=
  ({ w with adminRESTConfig := some adminRESTConfig }, none)

/-- `clusterInfoSerializer.CollectData` (`invariant.go:33-36`): returns
`nil, nil, nil`.  NOTE: the Go method takes only `(ctx, beginning, end)` —
it has no `storageDir` parameter (see the signature embeddings below). -/
def CollectData (w : ClusterInfoSerializer) (beginning ending : Nat) :
    Intervals × List JUnitTestCase × Option GoError :=
  ([], [], none)

/-- `clusterInfoSerializer.ConstructComputedIntervals` (`invariant.go:38-40`):
returns `nil, nil` for every input. -/
def ConstructComputedIntervals (w : ClusterInfoSerializer)
    (startingIntervals : Intervals) (recordedResources : ResourcesMap)
    (beginning ending : Nat) : Intervals × Option GoError :=
  ([], none)

/-- `clusterInfoSerializer.EvaluateTestsFromConstructedIntervals`
(`invariant.go:42-44`): returns `nil, nil`. -/
def EvaluateTestsFromConstructedIntervals (w : ClusterInfoSerializer)
    (finalIntervals : Intervals) : List JUnitTestCase × Option GoError :=
  ([], none)

/-- `clusterInfoSerializer.Cleanup` (`invariant.go:53-56`): returns a `nil`
error and touches no state, so its result is `(none, w)`. -/
def Cleanup (w : ClusterInfoSerializer) : Option GoError × ClusterInfoSerializer :=
  (none, w)

/-- Iterated cleanup: `cleanupTimes w n` is the observer state after `n`
consecutive `Cleanup` invocations. -/
def cleanupTimes (w : ClusterInfoSerializer) : Nat → ClusterInfoSerializer
  | 0 => w
  | n + 1 => cleanupTimes (Cleanup w).2 n

/-- `filepath.Join(storageDir, name)` for the two-component call in
`WriteContentToStorage` (external `path/filepath` collaborator). -/
def filepathJoin (dir name : String) : String :=
  dir ++ "/" ++ name

/-- `writeClusterData` (`invariant.go:58-64`): marshal the cluster data to
JSON (returning the error on failure) and write the file.  The external
`json.MarshalIndent` and `ioutil.WriteFile` collaborators are the
`marshalIndent` and `writeFile` parameters. -/
def writeClusterData (marshalIndent : ClusterData → Except GoError String)
    (writeFile : String → String → Option GoError)
    (filename : String) (clusterData : ClusterData) : Option GoError :=
  match marshalIndent clusterData with
  | .error e => some e
  | .ok jsonContent => writeFile filename jsonContent

/-- `clusterInfoSerializer.collectClusterData` (`invariant.go:67-69`):
delegates to the external `monitor.CollectClusterData`, passed in as
`collectExt`. -/
def collectClusterData (collectExt : Option RestConfig → String → ClusterData)
    (w : ClusterInfoSerializer) (masterNodeUpdated : String) : ClusterData :=
  collectExt w.adminRESTConfig masterNodeUpdated

/-- `clusterInfoSerializer.WriteContentToStorage` (`invariant.go:46-51`):
writes `cluster-data<timeSuffix>.json` under `storageDir`, serializing the
cluster data gathered via the external `monitor.WasMasterNodeUpdated`
(`wasMasterNodeUpdatedExt`) and `monitor.CollectClusterData` (`collectExt`). -/
def WriteContentToStorage (marshalIndent : ClusterData → Except GoError String)
    (writeFile : String → String → Option GoError)
    (wasMasterNodeUpdatedExt : Intervals → String)
    (collectExt : Option RestConfig → String → ClusterData)
    (w : ClusterInfoSerializer) (storageDir timeSuffix : String)
    (finalIntervals : Intervals) (finalResourceState : ResourcesMap) :
    Option GoError :=
  writeClusterData marshalIndent writeFile
    (filepathJoin storageDir ("cluster-data" ++ timeSuffix ++ ".json"))
    (collectClusterData collectExt w (wasMasterNodeUpdatedExt finalIntervals))

/-! ## Method signatures (`types.go` versus `invariant.go`)

Claim C3 is about whether the serializer's `CollectData` method has the
parameter list the `InvariantTest` interface requires, so the Go parameter
types of both are embedded verbatim. -/

/-- Go parameter types occurring in the `InvariantTest` phase methods. -/
inductive GoType where
  | contextT
  | stringT
  | timeT
  | restConfigPtr
  | recorderWriterT
  | intervalsT
  | resourcesMapT
  deriving DecidableEq, Inhabited

/-- Parameter types of `InvariantTest.CollectData` (`types.go:22`):
`(ctx context.Context, storageDir string, beginning, end time.Time)`. -/
def InvariantTest_CollectData_params : List GoType :=
  [GoType.contextT, GoType.stringT, GoType.timeT, GoType.timeT]

/-- Parameter types of `clusterInfoSerializer.CollectData`
(`invariant.go:33`): `(ctx context.Context, beginning, end time.Time)` —
no `storageDir`. -/
def clusterInfoSerializer_CollectData_params : List GoType :=
  [GoType.contextT, GoType.timeT, GoType.timeT]

/-! ## Sample values for evaluating the embedding at concrete inputs -/

/-- A concrete `url.Parse` response: every host parses to
`https://example.com` (no port written, so the canonical address gains
`:443`). -/
def sampleParse : String → Except GoError URL :=
  fun _ => .ok { Scheme := "https", Host := "example.com" }

/-- A concrete client configuration: bearer token, certificate file path
with inline data also present, inline key data with no key file, inline CA
data with no CA file, insecure TLS. -/
def sampleRestConfig : RestConfig :=
  { Host := "https://example.com"
    BearerToken := "tok"
    Username := "uname"
    CertFile := "cert.pem"
    CertData := "CERTDATA"
    KeyFile := ""
    KeyData := "KEYDATA"
    CAFile := ""
    CAData := "CADATA"
    Insecure := true }

/-- The kubeconfig record `createConfig` produces from `sampleParse`,
namespace `"myns"`, `sampleRestConfig` and a server-reported user
`"alice"`. -/
def sampleKubeconfig : ClientcmdConfig :=
  { Clusters := [("example-com:443",
      { Server := "https://example.com"
        CertificateAuthority := ""
        CertificateAuthorityData := "CADATA"
        InsecureSkipTLSVerify := true })]
    AuthInfos := [("alice/example-com:443",
      { Token := "tok"
        ClientCertificate := "cert.pem"
        ClientCertificateData := ""
        ClientKey := ""
        ClientKeyData := "KEYDATA" })]
    Contexts := [("myns/example-com:443/alice",
      { Cluster := "example-com:443"
        AuthInfo := "alice/example-com:443"
        Nspace := "myns" })]
    CurrentContext := "myns/example-com:443/alice" }

/-! ## Helper lemmas -/

/-- Replacing every `.` by `-` leaves no `.` in the string. -/
lemma dot_not_mem_replaceDotsWithDashes (s : String) :
    '.' ∉ (replaceDotsWithDashes s).data := by
  intro h
  rcases List.mem_map.1 h with ⟨c, _, hc⟩
  by_cases h' : c = '.' <;> simp [h'] at hc

/-- Name membership after appending one entry. -/
lemma containsName_append_single (r : Registry) (e : RegEntry) (m : String) :
    containsName ⟨r.entries ++ [e]⟩ m = (containsName r m || decide (e.1 = m)) := by
  simp [containsName, List.any_append]

/-- If some entry of `es` has a name already present in `r`, registering all
of `es` into `r` ends in a duplicate-name error. -/
lemma addAllEntries_error_of_collision (es : List RegEntry) :
    ∀ r : Registry, (∃ e ∈ es, containsName r e.1 = true) →
    ∃ n, addAllEntries r es = .error (RegError.duplicateName n) := by
  induction es with
  | nil =>
    intro r h
    rcases h with ⟨e, he, _⟩
    cases he
  | cons e es ih =>
    intro r h
    by_cases hc : containsName r e.1 = true
    · exact ⟨e.1, by simp [addAllEntries, AddInvariant, hc]⟩
    · rcases h with ⟨e', he', hcoll⟩
      rcases List.mem_cons.1 he' with rfl | he'
      · exact absurd hcoll hc
      · have hstep : addAllEntries r (e :: es) =
            addAllEntries ⟨r.entries ++ [(e.1, e.2.1, e.2.2)]⟩ es := by
          simp [addAllEntries, AddInvariant, hc]
        have hmono : containsName ⟨r.entries ++ [(e.1, e.2.1, e.2.2)]⟩ e'.1 = true := by
          have := containsName_append_single r (e.1, e.2.1, e.2.2) e'.1
          simp only [this, hcoll, Bool.true_or]
        rcases ih ⟨r.entries ++ [(e.1, e.2.1, e.2.2)]⟩ ⟨e', he', hmono⟩ with ⟨n, hn⟩
        exact ⟨n, hstep ▸ hn⟩

/-- If no entry of `es` has a name present in `r` and the names inside `es`
are pairwise distinct, registering all of `es` succeeds and appends them. -/
lemma addAllEntries_ok_of_fresh (es : List RegEntry) :
    ∀ r : Registry, (∀ e ∈ es, containsName r e.1 = false) →
    (es.map fun e => e.1).Nodup →
    addAllEntries r es = .ok ⟨r.entries ++ es⟩ := by
  induction es with
  | nil =>
    intro r _ _
    simp [addAllEntries]
  | cons e es ih =>
    intro r hfresh hnodup
    have hc : containsName r e.1 = false := hfresh e (List.mem_cons_self e es)
    have hstep : addAllEntries r (e :: es) =
        addAllEntries ⟨r.entries ++ [(e.1, e.2.1, e.2.2)]⟩ es := by
      simp [addAllEntries, AddInvariant, hc]
    have hcons : ((e :: es).map fun e' => e'.1) = e.1 :: (es.map fun e' => e'.1) :=
      List.map_cons _ e es
    rw [hcons] at hnodup
    have hhead : e.1 ∉ es.map fun e' => e'.1 := (List.nodup_cons.1 hnodup).1
    have hfresh' : ∀ e' ∈ es, containsName ⟨r.entries ++ [(e.1, e.2.1, e.2.2)]⟩ e'.1 = false := by
      intro e' he'
      have h1 : containsName r e'.1 = false := hfresh e' (List.mem_cons_of_mem e he')
      have h2 : e.1 ≠ e'.1 := fun hEq => hhead (hEq ▸ List.mem_map_of_mem (fun x => x.1) he')
      simp [containsName_append_single, h1, h2]
    have htail : (es.map fun e' => e'.1).Nodup := (List.nodup_cons.1 hnodup).2
    rw [hstep, ih ⟨r.entries ++ [(e.1, e.2.1, e.2.2)]⟩ hfresh' htail]
    simp

/-- Successful `createConfig` runs produce exactly the record built from the
cluster nickname and the user part of the nickname. -/
lemma createConfig_ok_eq (parse : String → Except GoError URL) (ns : String)
    (cfg : RestConfig) (resp : UserLookupResult) (clusterNick userPart : String)
    (hcl : getClusterNicknameFromConfig parse cfg = .ok clusterNick)
    (hup : getUserPartOfNickname cfg resp = .ok userPart) :
    createConfig parse ns cfg resp = .ok
      { Clusters := [(clusterNick,
          { Server := cfg.Host
            CertificateAuthority := cfg.CAFile
            CertificateAuthorityData :=
              if cfg.CAFile.length = 0 then cfg.CAData else ""
            InsecureSkipTLSVerify := cfg.Insecure })]
        AuthInfos := [(userPart ++ "/" ++ clusterNick,
          { Token := cfg.BearerToken
            ClientCertificate := cfg.CertFile
            ClientCertificateData :=
              if cfg.CertFile.length = 0 then cfg.CertData else ""
            ClientKey := cfg.KeyFile
            ClientKeyData :=
              if cfg.KeyFile.length = 0 then cfg.KeyData else "" })]
        Contexts := [(ns ++ "/" ++ clusterNick ++ "/" ++ userPart,
          { Cluster := clusterNick
            AuthInfo := userPart ++ "/" ++ clusterNick
            Nspace := ns })]
        CurrentContext := ns ++ "/" ++ clusterNick ++ "/" ++ userPart } := by
  simp [createConfig, getUserNicknameFromConfig, getContextNicknameFromConfig, hcl, hup]

/-- A successful `createConfig` run determines a cluster nickname and a user
part of the nickname. -/
lemma createConfig_ok_inv (parse : String → Except GoError URL) (ns : String)
    (cfg : RestConfig) (resp : UserLookupResult) (config : ClientcmdConfig)
    (h : createConfig parse ns cfg resp = .ok config) :
    ∃ clusterNick userPart,
      getClusterNicknameFromConfig parse cfg = .ok clusterNick ∧
      getUserPartOfNickname cfg resp = .ok userPart := by
  cases hcl : getClusterNicknameFromConfig parse cfg with
  | error e => simp [createConfig, hcl] at h
  | ok clusterNick =>
    cases hup : getUserPartOfNickname cfg resp with
    | error e => simp [createConfig, getUserNicknameFromConfig, hcl, hup] at h
    | ok userPart => exact ⟨clusterNick, userPart, rfl, rfl⟩


/-! ## Claims -/

/-- Claim C3: the claim asserts that the observer built by
`NewClusterInfoSerializer` has a `CollectData` method with parameters
`(context, storageDir, begin, end)` as `InvariantTest` requires.  The code
contradicts this: `clusterInfoSerializer.CollectData` takes
`(ctx, beginning, end)` with no `storageDir`, so its parameter list differs
from the interface's and the value cannot satisfy `invariants.InvariantTest`
(even though `NewClusterInfoSerializer` declares that return type).  This
theorem exhibits the mismatch on the embedded signatures. -/
theorem C3_collectData_signature_mismatch :
    clusterInfoSerializer_CollectData_params ≠ InvariantTest_CollectData_params := by
  decide

/-- Claim C4: `Cleanup` of the cluster-info serializer is idempotent — for
every observer state it returns a `nil` error and leaves the state
unchanged, any number of consecutive invocations leaves the state unchanged,
and invoking it twice is indistinguishable from invoking it once. -/
theorem C4_cleanup_idempotent (w : ClusterInfoSerializer) :
    Cleanup w = (none, w) ∧
    (∀ n : Nat, cleanupTimes w n = w) ∧
    Cleanup (Cleanup w).2 = Cleanup w := by
  refine ⟨rfl, ?_, rfl⟩
  intro n
  induction n with
  | zero => rfl
  | succ n ih => simpa [cleanupTimes, Cleanup] using ih

/-- Claim C5: for every input interval stream, resource snapshot and time
window, `ConstructComputedIntervals` of the cluster-info serializer returns
the empty interval set (hence echoes no input interval) and no error. -/
theorem C5_constructComputedIntervals_empty (w : ClusterInfoSerializer)
    (si : Intervals) (rr : ResourcesMap) (b e : Nat) :
    (ConstructComputedIntervals w si rr b e).1 = [] ∧
    (∀ i ∈ si, i ∉ (ConstructComputedIntervals w si rr b e).1) ∧
    (ConstructComputedIntervals w si rr b e).2 = none := by
  refine ⟨rfl, ?_, rfl⟩
  intro i _ hmem
  simp [ConstructComputedIntervals] at hmem

/-- Claim C5 witness: at a concrete input interval, the result is empty and
does not echo that interval. -/
theorem C5_witness :
    (ConstructComputedIntervals ⟨none⟩ [⟨"l", "m", 0, 1⟩] [] 0 1).1 = [] ∧
    ⟨"l", "m", 0, 1⟩ ∉ (ConstructComputedIntervals ⟨none⟩ [⟨"l", "m", 0, 1⟩] [] 0 1).1 :=
  ⟨(C5_constructComputedIntervals_empty ⟨none⟩ [⟨"l", "m", 0, 1⟩] [] 0 1).1,
   (C5_constructComputedIntervals_empty ⟨none⟩ [⟨"l", "m", 0, 1⟩] [] 0 1).2.1
     ⟨"l", "m", 0, 1⟩ (by decide)⟩

/-- Claim C10: every phase method of the cluster-info serializer except
`WriteContentToStorage` returns a `nil` error and empty intervals/results on
all inputs, while `WriteContentToStorage` can return an error, arising from
the JSON serialization or from the file write. -/
theorem C10_only_writeContentToStorage_can_fail :
    (∀ (w : ClusterInfoSerializer) (cfg : RestConfig) (rec : RecorderWriter),
      (StartCollection w cfg rec).2 = none) ∧
    (∀ (w : ClusterInfoSerializer) (b e : Nat), CollectData w b e = ([], [], none)) ∧
    (∀ (w : ClusterInfoSerializer) (si : Intervals) (rr : ResourcesMap) (b e : Nat),
      ConstructComputedIntervals w si rr b e = ([], none)) ∧
    (∀ (w : ClusterInfoSerializer) (fi : Intervals),
      EvaluateTestsFromConstructedIntervals w fi = ([], none)) ∧
    (∀ w : ClusterInfoSerializer, (Cleanup w).1 = none) ∧
    (∃ (m : ClusterData → Except GoError String)
       (wf : String → String → Option GoError)
       (wmu : Intervals → String) (ce : Option RestConfig → String → ClusterData)
       (w : ClusterInfoSerializer) (sd ts : String) (fi : Intervals) (frs : ResourcesMap),
      WriteContentToStorage m wf wmu ce w sd ts fi frs = some ⟨"marshal failed"⟩) ∧
    (∃ (m : ClusterData → Except GoError String)
       (wf : String → String → Option GoError)
       (wmu : Intervals → String) (ce : Option RestConfig → String → ClusterData)
       (w : ClusterInfoSerializer) (sd ts : String) (fi : Intervals) (frs : ResourcesMap),
      WriteContentToStorage m wf wmu ce w sd ts fi frs = some ⟨"write failed"⟩) := by
  refine ⟨fun _ _ _ => rfl, fun _ _ _ => rfl, fun _ _ _ _ _ => rfl, fun _ _ => rfl,
    fun _ => rfl, ?_, ?_⟩
  · exact ⟨fun _ => .error ⟨"marshal failed"⟩, fun _ _ => none, fun _ => "",
      fun _ _ => ⟨""⟩, ⟨none⟩, "", "", [], [], rfl⟩
  · exact ⟨fun _ => .ok "", fun _ _ => some ⟨"write failed"⟩, fun _ => "",
      fun _ _ => ⟨""⟩, ⟨none⟩, "", "", [], [], rfl⟩

/-- Claim C9: whenever the configured host parses as a URL,
`getClusterNicknameFromConfig` succeeds and returns the canonical
`host:port` with every `.` replaced by `-`, so the nickname contains no `.`. -/
theorem C9_getClusterNickname_canonical (parse : String → Except GoError URL)
    (cfg : RestConfig) (u : URL) (h : parse cfg.Host = .ok u) :
    getClusterNicknameFromConfig parse cfg =
      .ok (replaceDotsWithDashes (CanonicalAddr u)) ∧
    '.' ∉ (replaceDotsWithDashes (CanonicalAddr u)).data :=
  ⟨by simp [getClusterNicknameFromConfig, h],
   dot_not_mem_replaceDotsWithDashes (CanonicalAddr u)⟩

/-- Claim C9 witness: for a host with a dotted name and no port under
`https`, the nickname is the canonical address with dashes and no dot. -/
theorem C9_witness :
    getClusterNicknameFromConfig
      (fun _ => .ok ⟨"https", "api.example.com"⟩)
      ⟨"https://api.example.com", "", "", "", "", "", "", "", "", false⟩ =
      .ok "api-example-com:443" ∧
    '.' ∉ ("api-example-com:443" : String).data := by
  have h := C9_getClusterNickname_canonical
    (fun _ => .ok ⟨"https", "api.example.com"⟩)
    ⟨"https://api.example.com", "", "", "", "", "", "", "", "", false⟩
    ⟨"https", "api.example.com"⟩ rfl
  have hval : replaceDotsWithDashes (CanonicalAddr ⟨"https", "api.example.com"⟩) =
      "api-example-com:443" := by decide
  exact ⟨by rw [← hval]; exact h.1, by rw [← hval]; exact h.2⟩

/-- Claim C1: registering an observer under a name already present at this
registry level fails with a duplicate-name error — regardless of how the
registry was populated and even when the second registration supplies the
identical `(jiraComponent, observer)` binding — while a registration under a
fresh name succeeds and stores the binding. -/
theorem C1_addInvariant_duplicate_name (r : Registry) (name jc jc2 : String)
    (obs obs2 : ObserverId) :
    (containsName r name = true →
      AddInvariant r name jc obs = .error (RegError.duplicateName name)) ∧
    (containsName r name = false →
      AddInvariant r name jc obs = .ok ⟨r.entries ++ [(name, jc, obs)]⟩) ∧
    (∀ r' : Registry, AddInvariant r name jc obs = .ok r' →
      AddInvariant r' name jc obs = .error (RegError.duplicateName name) ∧
      AddInvariant r' name jc2 obs2 = .error (RegError.duplicateName name)) := by
  refine ⟨fun h => by simp [AddInvariant, h], fun h => by simp [AddInvariant, h], ?_⟩
  intro r' h
  by_cases hc : containsName r name = true
  · simp [AddInvariant, hc] at h
  · have hc' : containsName r name = false := Bool.eq_false_iff.2 hc
    simp only [AddInvariant, hc', Bool.false_eq_true, if_false, Except.ok.injEq] at h
    have hmem : containsName r' name = true := by
      rw [← h, containsName_append_single]
      simp
    exact ⟨by simp [AddInvariant, hmem], by simp [AddInvariant, hmem]⟩

/-- Claim C1 witness: on the empty registry, registering `"etcd"` succeeds
and stores the binding, and re-registering the identical observer under the
same name fails with the duplicate-name error. -/
theorem C1_witness :
    AddInvariant ⟨[]⟩ "etcd" "Etcd" 7 = .ok ⟨[("etcd", "Etcd", 7)]⟩ ∧
    AddInvariant ⟨[("etcd", "Etcd", 7)]⟩ "etcd" "Etcd" 7 =
      .error (RegError.duplicateName "etcd") :=
  ⟨(C1_addInvariant_duplicate_name ⟨[]⟩ "etcd" "Etcd" "Etcd" 7 7).2.1 (by decide),
   ((C1_addInvariant_duplicate_name ⟨[]⟩ "etcd" "Etcd" "Etcd" 7 7).2.2
      ⟨[("etcd", "Etcd", 7)]⟩ (by decide)).1⟩

/-- Claim C2: composing a child registry into a parent fails with a
duplicate-name error whenever any child observer name is already present in
the parent, and otherwise (with the child's own names pairwise distinct, as
any registry built through `AddInvariant` has) merges all of the child's
entries into the parent's namespace. -/
theorem C2_composeSubRegistry_merge_or_collide (parent child : Registry) :
    ((∃ e ∈ child.entries, containsName parent e.1 = true) →
      ∃ n, composeSubRegistry parent child = .error (RegError.duplicateName n)) ∧
    ((∀ e ∈ child.entries, containsName parent e.1 = false) →
      (child.entries.map fun e => e.1).Nodup →
      composeSubRegistry parent child = .ok ⟨parent.entries ++ child.entries⟩) :=
  ⟨fun h => addAllEntries_error_of_collision child.entries parent h,
   fun h hn => addAllEntries_ok_of_fresh child.entries parent h hn⟩

/-- Claim C2 witness: composing a disjoint child merges its entries into the
parent; composing a child that reuses the parent's name `"etcd"` fails with
a duplicate-name error. -/
theorem C2_witness :
    composeSubRegistry ⟨[("etcd", "Etcd", 7)]⟩ ⟨[("kubelet", "Node", 8)]⟩ =
      .ok ⟨[("etcd", "Etcd", 7), ("kubelet", "Node", 8)]⟩ ∧
    ∃ n, composeSubRegistry ⟨[("etcd", "Etcd", 7)]⟩ ⟨[("etcd", "Node", 8)]⟩ =
      .error (RegError.duplicateName n) :=
  ⟨(C2_composeSubRegistry_merge_or_collide ⟨[("etcd", "Etcd", 7)]⟩
      ⟨[("kubelet", "Node", 8)]⟩).2 (by decide) (by decide),
   (C2_composeSubRegistry_merge_or_collide ⟨[("etcd", "Etcd", 7)]⟩
      ⟨[("etcd", "Node", 8)]⟩).1 ⟨("etcd", "Node", 8), by decide, by decide⟩⟩

/-- Claim C6 counterexample: `createConfig`'s result is NOT determined
solely by the namespace and client configuration — with the same parse
function, namespace and configuration, two different server responses to
the user lookup (user `"alice"` versus user `"bob"`) produce different
kubeconfig records, because `getUserPartOfNickname` queries the user API. -/
theorem C6_counterexample :
    createConfig sampleParse "myns" sampleRestConfig (UserLookupResult.found "alice") ≠
    createConfig sampleParse "myns" sampleRestConfig (UserLookupResult.found "bob") := by
  decide

/-- Claim C6 (amended): `createConfig` is a synchronous data transformation
of its arguments together with the server-reported user identity — whenever
two user-lookup outcomes resolve to the same user part of the nickname, the
two runs produce identical kubeconfig records. -/
theorem C6_createConfig_determined_by_user_lookup
    (parse : String → Except GoError URL) (ns : String) (cfg : RestConfig)
    (r1 r2 : UserLookupResult)
    (h : getUserPartOfNickname cfg r1 = getUserPartOfNickname cfg r2) :
    createConfig parse ns cfg r1 = createConfig parse ns cfg r2 := by
  simp [createConfig, getUserNicknameFromConfig, getContextNicknameFromConfig, h]

/-- Claim C6 witness: a server lookup returning user `"tok"` and a
NotFound/Forbidden lookup that falls back to the bearer token `"tok"`
resolve to the same user part, so the two runs agree. -/
theorem C6_witness :
    createConfig sampleParse "myns" sampleRestConfig (UserLookupResult.found "tok") =
    createConfig sampleParse "myns" sampleRestConfig UserLookupResult.notFoundOrForbidden :=
  C6_createConfig_determined_by_user_lookup sampleParse "myns" sampleRestConfig
    (UserLookupResult.found "tok") UserLookupResult.notFoundOrForbidden (by decide)

/-- Claim C7: whenever `createConfig` succeeds, the returned record maps the
connection parameters faithfully — the cluster entry's server is the
configuration's host and its insecure flag the configuration's insecure
flag; the auth entry's token is the bearer token; and certificate, key and
CA come from the configured file paths, with the inline data used only when
the corresponding file path is empty. -/
theorem C7_createConfig_faithful_mapping (parse : String → Except GoError URL)
    (ns : String) (cfg : RestConfig) (resp : UserLookupResult)
    (config : ClientcmdConfig)
    (h : createConfig parse ns cfg resp = .ok config) :
    (∀ entry ∈ config.Clusters,
      entry.2.Server = cfg.Host ∧
      entry.2.InsecureSkipTLSVerify = cfg.Insecure ∧
      entry.2.CertificateAuthority = cfg.CAFile ∧
      entry.2.CertificateAuthorityData =
        (if cfg.CAFile.length = 0 then cfg.CAData else "")) ∧
    (∀ entry ∈ config.AuthInfos,
      entry.2.Token = cfg.BearerToken ∧
      entry.2.ClientCertificate = cfg.CertFile ∧
      entry.2.ClientCertificateData =
        (if cfg.CertFile.length = 0 then cfg.CertData else "") ∧
      entry.2.ClientKey = cfg.KeyFile ∧
      entry.2.ClientKeyData =
        (if cfg.KeyFile.length = 0 then cfg.KeyData else "")) := by
  rcases createConfig_ok_inv parse ns cfg resp config h with ⟨clusterNick, userPart, hcl, hup⟩
  rw [createConfig_ok_eq parse ns cfg resp clusterNick userPart hcl hup] at h
  have hconfig := (Except.ok.inj h).symm
  subst hconfig
  constructor
  · intro entry hmem
    rw [List.mem_singleton] at hmem
    subst hmem
    exact ⟨rfl, rfl, rfl, rfl⟩
  · intro entry hmem
    rw [List.mem_singleton] at hmem
    subst hmem
    exact ⟨rfl, rfl, rfl, rfl, rfl⟩

/-- Claim C7 witness: at the sample configuration (cert file set, key and CA
files empty) the single cluster and auth entries carry the host, insecure
flag, token, and file-path-or-inline-data fields faithfully. -/
theorem C7_witness :
    (∀ entry ∈ sampleKubeconfig.Clusters,
      entry.2.Server = sampleRestConfig.Host ∧
      entry.2.InsecureSkipTLSVerify = sampleRestConfig.Insecure ∧
      entry.2.CertificateAuthority = sampleRestConfig.CAFile ∧
      entry.2.CertificateAuthorityData =
        (if sampleRestConfig.CAFile.length = 0 then sampleRestConfig.CAData else "")) ∧
    (∀ entry ∈ sampleKubeconfig.AuthInfos,
      entry.2.Token = sampleRestConfig.BearerToken ∧
      entry.2.ClientCertificate = sampleRestConfig.CertFile ∧
      entry.2.ClientCertificateData =
        (if sampleRestConfig.CertFile.length = 0 then sampleRestConfig.CertData else "") ∧
      entry.2.ClientKey = sampleRestConfig.KeyFile ∧
      entry.2.ClientKeyData =
        (if sampleRestConfig.KeyFile.length = 0 then sampleRestConfig.KeyData else "")) :=
  C7_createConfig_faithful_mapping sampleParse "myns" sampleRestConfig
    (UserLookupResult.found "alice") sampleKubeconfig (by decide)

/-- Claim C8: whenever `createConfig` succeeds, the returned kubeconfig is
internally consistent — exactly one cluster, auth-info and context entry;
the context references the cluster and auth-info entries by exactly the keys
they are stored under; and `CurrentContext` equals the single context's key,
`namespace ++ "/" ++ clusterNick ++ "/" ++ userPart`. -/
theorem C8_createConfig_internally_consistent (parse : String → Except GoError URL)
    (ns : String) (cfg : RestConfig) (resp : UserLookupResult)
    (config : ClientcmdConfig)
    (h : createConfig parse ns cfg resp = .ok config) :
    ∃ (clusterNick userPart : String) (cluster : Cluster) (credentials : AuthInfo),
      config.Clusters = [(clusterNick, cluster)] ∧
      config.AuthInfos = [(userPart ++ "/" ++ clusterNick, credentials)] ∧
      config.Contexts = [(ns ++ "/" ++ clusterNick ++ "/" ++ userPart,
        { Cluster := clusterNick
          AuthInfo := userPart ++ "/" ++ clusterNick
          Nspace := ns })] ∧
      config.CurrentContext = ns ++ "/" ++ clusterNick ++ "/" ++ userPart := by
  rcases createConfig_ok_inv parse ns cfg resp config h with ⟨clusterNick, userPart, hcl, hup⟩
  rw [createConfig_ok_eq parse ns cfg resp clusterNick userPart hcl hup] at h
  have hconfig := (Except.ok.inj h).symm
  subst hconfig
  exact ⟨clusterNick, userPart, _, _, rfl, rfl, rfl, rfl⟩

/-- Claim C8 witness: at the sample configuration the produced kubeconfig
has one entry of each kind, consistent cross-references, and
`CurrentContext = "myns/example-com:443/alice"`. -/
theorem C8_witness :
    ∃ (clusterNick userPart : String) (cluster : Cluster) (credentials : AuthInfo),
      sampleKubeconfig.Clusters = [(clusterNick, cluster)] ∧
      sampleKubeconfig.AuthInfos = [(userPart ++ "/" ++ clusterNick, credentials)] ∧
      sampleKubeconfig.Contexts = [("myns" ++ "/" ++ clusterNick ++ "/" ++ userPart,
        { Cluster := clusterNick
          AuthInfo := userPart ++ "/" ++ clusterNick
          Nspace := "myns" })] ∧
      sampleKubeconfig.CurrentContext = "myns" ++ "/" ++ clusterNick ++ "/" ++ userPart :=
  C8_createConfig_internally_consistent sampleParse "myns" sampleRestConfig
    (UserLookupResult.found "alice") sampleKubeconfig (by decide)

end OriginInvariants
